import Mathlib

/-!
Shallow embedding of `src/backend/main.py` (AI Toolbox API): the prompt
composition and template-selection logic, the YouTube URL resolver, the
video-details fetcher, the summarize endpoint's control flow, and the Jira
ticket-creation adapter.  External I/O (the OpenAI completion call, the
transcript fetch, the pytube metadata fetch, the HTTP POST to Jira) is
modelled by oracle arguments; everything else is translated directly from
the Python source.
-/

namespace AIToolbox

/-- Python truthiness of an `Optional[str]`: `None` and `""` are falsy. -/
def strTruthy : Option String → Bool
  | none => false
  | some s => !(s == "")

/-- Python `f"{x}"` rendering of an `Optional[str]`: `None` prints as "None". -/
def pyOptStr : Option String → String
  | none => "None"
  | some s => s

/-- Python slice `s[:n]` on a `str`: the first `n` code points. -/
def pySlice (s : String) (n : Nat) : String :=
  String.mk (s.data.take n)

/-! ## `extract_youtube_id` (main.py lines 225-238)

Each of the three regexes is a literal alternation followed by a single
greedy negated character class capture, so `re.search` semantics reduce to:
scan start positions left to right; at each position try the literal
alternatives in order; on a literal match capture the maximal following run
of characters outside the stop set, requiring at least one. -/

/-- At one start position, try each literal alternative in order and capture
the maximal nonempty run of characters not in `stops` after it. -/
def tryLitsAt (lits : List (List Char)) (stops : List Char) (cs : List Char) :
    Option (List Char) :=
  match lits with
  | [] => none
  | lit :: more =>
    if lit.isPrefixOf cs then
      let cap := (cs.drop lit.length).takeWhile (fun c => !(stops.contains c))
      if cap.isEmpty then tryLitsAt more stops cs else some cap
    else tryLitsAt more stops cs

/-- Leftmost-position search for `tryLitsAt`, as `re.search` does. -/
def searchLits (lits : List (List Char)) (stops : List Char) :
    List Char → Option (List Char)
  | [] => none
  | c :: rest =>
    match tryLitsAt lits stops (c :: rest) with
    | some cap => some cap
    | none => searchLits lits stops rest

/-- One pattern of the form `(?:lit1|lit2|...)([^stops]+)`, searched in `url`. -/
def patternSearch (lits : List String) (stops : List Char) (url : String) :
    Option String :=
  (searchLits (lits.map String.data) stops url.data).map String.mk

/-- `extract_youtube_id(url)`: the three regexes tried in order; `None`
(here `none`) when no pattern matches. -/
def extract_youtube_id (url : String) : Option String :=
  match patternSearch ["youtube.com/watch?v=", "youtu.be/"] ['&', '?'] url with
  | some v => some v
  | none =>
    match patternSearch ["youtube.com/embed/"] ['/', '?'] url with
    | some v => some v
    | none => patternSearch ["youtube.com/v/"] ['/', '?'] url

/-! ## Template tables (dict literals with `.get(key, default)`) -/

/-- `platform_guides.get(platform, platform_guides["linkedin"])` from
`generate_social_media_post`. -/
def platform_guides_get (platform : String) : String :=
  if platform == "linkedin" then
    "professional post for LinkedIn that includes bullet points, some emojis, and relevant hashtags"
  else if platform == "twitter" then
    "concise tweet for X (Twitter) within 280 characters, with relevant hashtags"
  else if platform == "youtube" then
    "engaging community post for YouTube that encourages interaction"
  else if platform == "instagram" then
    "visually descriptive caption for Instagram with appropriate emojis and hashtags"
  else
    "professional post for LinkedIn that includes bullet points, some emojis, and relevant hashtags"

/-- `style_guides.get(writing_style, style_guides["professional"])` from
`generate_social_media_post`. -/
def style_guides_get (writing_style : String) : String :=
  if writing_style == "professional" then "in a formal, business-oriented tone"
  else if writing_style == "casual" then "in a friendly, conversational approach"
  else if writing_style == "inspirational" then "in a motivational and uplifting style"
  else if writing_style == "educational" then "in an informative and teaching-focused manner"
  else if writing_style == "humorous" then "with light-hearted appropriate humor"
  else if writing_style == "thought-provoking" then "that encourages discussion and reflection"
  else "in a formal, business-oriented tone"

/-- `ticket_prompts.get(ticket_type, ticket_prompts["task"])` from
`generate_jira_ticket_content`. -/
def ticket_prompts_get (ticket_type : String) : String :=
  if ticket_type == "epic" then
    "Create a comprehensive Epic description that includes business value, scope, and acceptance criteria"
  else if ticket_type == "story" then
    "Create a detailed User Story following the format: \x27As a [user], I want [goal] so that [benefit]\x27, include acceptance criteria and definition of done"
  else if ticket_type == "task" then
    "Create a clear Task description with specific steps, requirements, and deliverables"
  else if ticket_type == "bug" then
    "Create a detailed Bug report with steps to reproduce, expected vs actual behavior, and environment details"
  else if ticket_type == "improvement" then
    "Create an Improvement description explaining the current state, proposed enhancement, and expected benefits"
  else if ticket_type == "feature" then
    "Create a Feature description with user requirements, functional specifications, and acceptance criteria"
  else
    "Create a clear Task description with specific steps, requirements, and deliverables"

/-- `content_prompts.get(content_type, "Create professional communication content")`
from `generate_communication_content`. -/
def content_prompts_get (content_type : String) : String :=
  if content_type == "meeting-agenda" then "Create a professional meeting agenda"
  else if content_type == "meeting-description" then "Create a comprehensive meeting description"
  else if content_type == "slack-message" then "Create an engaging Slack message"
  else "Create professional communication content"

/-- `tone_guidelines.get(tone, "using appropriate professional language")`
from `generate_communication_content`. -/
def tone_guidelines_get (tone : String) : String :=
  if tone == "professional" then "using formal business language and structure"
  else if tone == "casual" then "using friendly, relaxed language"
  else if tone == "friendly" then "using warm, approachable language"
  else if tone == "urgent" then "using direct, action-oriented language that conveys importance"
  else if tone == "informative" then "using clear, educational language that explains well"
  else if tone == "collaborative" then "using inclusive language that encourages participation"
  else "using appropriate professional language"

/-- `style_guidelines.get(style, "with clear formatting")` from
`generate_communication_content`. -/
def style_guidelines_get (style : String) : String :=
  if style == "concise" then "Keep it brief and to the point"
  else if style == "detailed" then "Provide comprehensive information with thorough explanations"
  else if style == "bullet-points" then "Use bullet points and structured formatting"
  else if style == "structured" then "Use clear sections and organized formatting"
  else if style == "action-oriented" then "Focus on actionable items and next steps"
  else "with clear formatting"

/-- `jira_issue_types.get(ticket_type, "Task")` from
`create_jira_ticket_in_instance`. -/
def jira_issue_types_get (ticket_type : String) : String :=
  if ticket_type == "epic" then "Epic"
  else if ticket_type == "story" then "Story"
  else if ticket_type == "task" then "Task"
  else if ticket_type == "bug" then "Bug"
  else if ticket_type == "improvement" then "Improvement"
  else if ticket_type == "feature" then "New Feature"
  else "Task"

/-! ## Prompt composers (the pure string-building part of each
`generate_*` function; the trailing OpenAI call is an oracle elsewhere) -/

/-- The prompt built by `generate_content_from_transcript` (lines 273-291).
`title_entry` is the value of the `'title'` key of the `video_details`
dict passed by the caller (every caller sets it), fed through
`video_details.get('title', 'YouTube Video')`. -/
def generate_content_from_transcript_prompt (transcript output_type : String)
    (title_entry : Option String) (custom_prompt : Option String) : String :=
  let transcript := pySlice transcript 4000
  let title := title_entry.getD "YouTube Video"
  if output_type == "summary" then
    "Summarize the main points of this YouTube video titled \x27" ++ title ++ "\x27. Transcript:\n\n" ++ transcript
  else if output_type == "notes" then
    "Create detailed notes in bullet point format from this YouTube video titled \x27" ++ title ++ "\x27. Transcript:\n\n" ++ transcript
  else if output_type == "explanation" then
    "Explain the content of this YouTube video titled \x27" ++ title ++ "\x27 in simple terms that are easy to understand. Transcript:\n\n" ++ transcript
  else if output_type == "questions" then
    "Generate important questions and answers based on the content of this YouTube video titled \x27" ++ title ++ "\x27. Transcript:\n\n" ++ transcript
  else if output_type == "custom" && strTruthy custom_prompt then
    custom_prompt.getD "" ++ "\n\nVideo Title: \x27" ++ title ++ "\x27\nTranscript:\n\n" ++ transcript
  else
    "Analyze the content of this YouTube video titled \x27" ++ title ++ "\x27. Transcript:\n\n" ++ transcript

/-- Everything of the transcript prompt before the (truncated) transcript:
the same branch structure with the trailing transcript removed. -/
def transcriptPromptLead (output_type : String)
    (title_entry : Option String) (custom_prompt : Option String) : String :=
  let title := title_entry.getD "YouTube Video"
  if output_type == "summary" then
    "Summarize the main points of this YouTube video titled \x27" ++ title ++ "\x27. Transcript:\n\n"
  else if output_type == "notes" then
    "Create detailed notes in bullet point format from this YouTube video titled \x27" ++ title ++ "\x27. Transcript:\n\n"
  else if output_type == "explanation" then
    "Explain the content of this YouTube video titled \x27" ++ title ++ "\x27 in simple terms that are easy to understand. Transcript:\n\n"
  else if output_type == "questions" then
    "Generate important questions and answers based on the content of this YouTube video titled \x27" ++ title ++ "\x27. Transcript:\n\n"
  else if output_type == "custom" && strTruthy custom_prompt then
    custom_prompt.getD "" ++ "\n\nVideo Title: \x27" ++ title ++ "\x27\nTranscript:\n\n"
  else
    "Analyze the content of this YouTube video titled \x27" ++ title ++ "\x27. Transcript:\n\n"

/-- The prompt built by `generate_social_media_post` (lines 307-332). -/
def generate_social_media_post_prompt (topic platform writing_style : String)
    (custom_instructions : Option String) : String :=
  let p := "Create a " ++ platform_guides_get platform ++ " " ++ style_guides_get writing_style
    ++ " about the topic: " ++ topic ++ "."
  if strTruthy custom_instructions then
    p ++ "\n\nAdditional instructions: " ++ custom_instructions.getD ""
  else p

/-- The prompt built by `generate_comment_for_content` (lines 348-354). -/
def generate_comment_for_content_prompt (content platform tone : String)
    (custom_instructions : Option String) : String :=
  let p := "Generate a thoughtful " ++ tone ++ " comment for the following " ++ platform
    ++ " content:\n\n" ++ content
  if strTruthy custom_instructions then
    p ++ "\n\nAdditional instructions: " ++ custom_instructions.getD ""
  else p

/-- The prompt built by `generate_jira_ticket_content` (lines 370-401), a
triple-quoted f-string whose indentation and blank lines are literal. -/
def generate_jira_ticket_content_prompt
    (subject rough_description ticket_type priority : String) : String :=
  let ticket_prompt := ticket_prompts_get ticket_type
  "\n    " ++ ticket_prompt ++ " for a Jira ticket.\n    \n    Subject: " ++ subject
    ++ "\n    Priority: " ++ priority
    ++ "\n    Rough Description: " ++ rough_description
    ++ "\n    \n    Format the response professionally with clear sections and use markdown formatting where appropriate.\n    Include relevant sections like:\n    - Description/Summary\n    - Acceptance Criteria (where applicable)\n    - Steps to Reproduce (for bugs)\n    - Requirements\n    - Notes/Additional Information\n    \n    Make it comprehensive but concise, suitable for a development team.\n    "

/-- The prompt built by `generate_communication_content` (lines 416-465). -/
def generate_communication_content_prompt (content_type subject : String)
    (details : Option String) (tone style : String)
    (additional_info : Option String) : String :=
  let base_prompt := content_prompts_get content_type
  let tone_guide := tone_guidelines_get tone
  let style_guide := style_guidelines_get style
  let p1 := base_prompt ++ " " ++ tone_guide ++ " and " ++ style_guide ++ ".\n\n"
  let p2 := p1 ++ "Subject/Title: " ++ subject ++ "\n"
  let p3 := if strTruthy details then p2 ++ "Context/Details: " ++ details.getD "" ++ "\n" else p2
  let p4 :=
    if content_type == "meeting-agenda" then
      p3 ++ "\nInclude: Meeting objectives, agenda items with time allocations, attendees/roles, and action items. Format it professionally."
    else if content_type == "meeting-description" then
      p3 ++ "\nInclude: Meeting purpose, expected outcomes, key discussion points, and participant expectations."
    else if content_type == "slack-message" then
      p3 ++ "\nMake it appropriate for team communication, engaging, and clear. Include relevant emojis if the tone allows."
    else p3
  if strTruthy additional_info then
    p4 ++ "\nAdditional Requirements: " ++ additional_info.getD ""
  else p4

/-! ## Video details and the summarize endpoint (lines 88-115, 240-271) -/

/-- The six-field dict returned by `get_video_details` when the pytube
fetch succeeds. -/
structure FullVideoMeta where
  title : String
  author : String
  length : Nat
  views : Nat
  publish_date : String
  thumbnail_url : String
deriving DecidableEq

/-- The dict returned by `get_video_details`: either the full metadata or
the minimal placeholder written in the `except` branch. -/
inductive VideoDetailsDict where
  | full (m : FullVideoMeta)
  | minimal
deriving DecidableEq

/-- `get_video_details(video_id)`: the pytube call is the oracle `fetch`;
any failure is swallowed and the minimal placeholder dict is returned. -/
def get_video_details (fetch : Except String FullVideoMeta) : VideoDetailsDict :=
  match fetch with
  | .ok m => .full m
  | .error _ => .minimal

/-- Value of the `'title'` key of the details dict (both shapes set it). -/
def VideoDetailsDict.titleVal : VideoDetailsDict → String
  | .full m => m.title
  | .minimal => "YouTube Video"

/-- Value of the `'author'` key of the details dict (both shapes set it). -/
def VideoDetailsDict.authorVal : VideoDetailsDict → String
  | .full m => m.author
  | .minimal => "Unknown"

/-- A Python exception as the handlers see it: either a FastAPI
`HTTPException` (status code and detail) or a plain `Exception` message. -/
inductive PyError where
  | http (status_code : Nat) (detail : String)
  | exn (msg : String)
deriving DecidableEq

/-- Python `str(e)`; for `HTTPException`, starlette renders
`f"{status_code}: {detail}"`. -/
def PyError.str : PyError → String
  | .http s d => toString s ++ ": " ++ d
  | .exn m => m

/-- `get_youtube_transcript(video_id, language)`: the transcript-API call
(already joined with spaces) is the oracle `fetch`; a failure is re-raised
with the `"Failed to get transcript: "` prefix attached. -/
def get_youtube_transcript (fetch : Except String String) : Except PyError String :=
  match fetch with
  | .ok t => .ok t
  | .error e => .error (.exn ("Failed to get transcript: " ++ e))

/-- The `YouTubeRequest` pydantic model. -/
structure YouTubeRequest where
  video_url : String
  output_type : String
  language : String
  custom_prompt : Option String

/-- What the framework sends back for one request: the JSON body of a
success, or an HTTP error response with a status code and detail. -/
inductive Response where
  | ok (result : String) (video_details : VideoDetailsDict)
  | httpError (status_code : Nat) (detail : String)
deriving DecidableEq

/-- `summarize_youtube` (lines 88-115).  The body runs inside
`try: ... except Exception as e: raise HTTPException(500, str(e))`; since
`HTTPException` subclasses `Exception`, the 400 raised for an invalid URL
is itself caught and re-signalled as a 500. -/
def summarize_youtube (req : YouTubeRequest) (metaFetch : Except String FullVideoMeta)
    (transcriptFetch : Except String String)
    (oai : String → Except String String) : Response :=
  let body : Except PyError (String × VideoDetailsDict) :=
    match extract_youtube_id req.video_url with
    | none => .error (.http 400 "Invalid YouTube URL")
    | some _ =>
      let video_details := get_video_details metaFetch
      match get_youtube_transcript transcriptFetch with
      | .error e => .error e
      | .ok transcript =>
        match oai (generate_content_from_transcript_prompt transcript req.output_type
            (some video_details.titleVal) req.custom_prompt) with
        | .error e => .error (.exn e)
        | .ok result => .ok (result, video_details)
  match body with
  | .ok (r, vd) => .ok r vd
  | .error e => .httpError 500 (PyError.str e)

/-! ## Jira ticket creation (lines 480-543) -/

/-- The `JiraSettings` pydantic model. -/
structure JiraSettings where
  jira_url : String
  username : String
  api_token : String
  project_key : String
deriving DecidableEq

/-- The `fields` object of the JSON document posted to Jira. -/
structure IssueFields where
  project_key : String
  summary : String
  description : String
  issuetype_name : String
  priority_name : String
deriving DecidableEq

/-- The `issue_data["fields"]` dict built by `create_jira_ticket_in_instance`. -/
def jira_issue_fields (subject content ticket_type priority : String)
    (js : JiraSettings) : IssueFields :=
  ⟨js.project_key, subject, content, jira_issue_types_get ticket_type, priority⟩

/-- Python `s.rstrip('/')`: remove every trailing `'/'`. -/
def rstripSlash (s : String) : String :=
  String.mk ((s.data.reverse.dropWhile (fun c => c == '/')).reverse)

/-- The issue-creation endpoint URL
`f"{jira_settings.jira_url.rstrip('/')}/rest/api/3/issue"`. -/
def jira_api_url (js : JiraSettings) : String :=
  rstripSlash js.jira_url ++ "/rest/api/3/issue"

/-- A successfully parsed `response.json()` as the function reads it: its
`.get('key')` and its f-string rendering (used as the error detail). -/
structure JiraJson where
  key_field : Option String
  dict_repr : String
deriving DecidableEq

/-- The parts of the `requests` response the function touches: the status
code, whether `response.content` is truthy, and `response.json()` — which
raises a `JSONDecodeError` (a `requests.exceptions.RequestException`
subclass; its `str` is the error payload here) when the body is not valid
JSON. -/
structure JiraHttpResponse where
  status_code : Nat
  has_content : Bool
  json : Except String JiraJson

/-- The ticket URL returned on success:
`f"{jira_settings.jira_url.rstrip('/')}/browse/{ticket_key}"`. -/
def jira_browse_url (js : JiraSettings) (key : Option String) : String :=
  rstripSlash js.jira_url ++ "/browse/" ++ pyOptStr key

/-- `create_jira_ticket_in_instance` (lines 480-543).  The single HTTP POST
is the oracle `post`, keyed on the URL and the issue fields actually sent;
no retry exists: exactly one `post` is consumed.  On 201 the parsed body's
key becomes the browse URL; on any other status
`error_detail = response.json() if response.content else {"error": "Unknown error"}`
feeds the raised message.  Either call of `response.json()` can raise a
`JSONDecodeError`, which the function's own
`except requests.exceptions.RequestException` turns into
`"Failed to connect to Jira: ..."` — a message without the status code. -/
def create_jira_ticket_in_instance (subject content ticket_type priority : String)
    (js : JiraSettings) (post : String → IssueFields → JiraHttpResponse) :
    Except String String :=
  let fields := jira_issue_fields subject content ticket_type priority js
  let url := jira_api_url js
  let response := post url fields
  if response.status_code == 201 then
    match response.json with
    | .ok response_data => .ok (jira_browse_url js response_data.key_field)
    | .error e => .error ("Failed to connect to Jira: " ++ e)
  else
    if response.has_content then
      match response.json with
      | .ok response_data =>
        .error ("Failed to create Jira ticket: " ++ toString response.status_code
          ++ " - " ++ response_data.dict_repr)
      | .error e => .error ("Failed to connect to Jira: " ++ e)
    else
      .error ("Failed to create Jira ticket: " ++ toString response.status_code
        ++ " - " ++ "\x7b\x27error\x27: \x27Unknown error\x27\x7d")

/-! ## Helper lemmas about `rstrip('/')` -/

theorem dropWhile_replicate_slash (n : Nat) (l : List Char) :
    (List.replicate n '/' ++ l).dropWhile (fun c => c == '/')
      = l.dropWhile (fun c => c == '/') := by
  induction n with
  | zero => rfl
  | succ k ih =>
    rw [List.replicate_succ, List.cons_append, List.dropWhile_cons]
    simp only [beq_self_eq_true, if_true]
    exact ih

theorem rstripSlash_append_slashes (s : String) (n : Nat) :
    rstripSlash (s ++ String.mk (List.replicate n '/')) = rstripSlash s := by
  simp [rstripSlash, String.data_append, List.reverse_append, List.reverse_replicate,
    dropWhile_replicate_slash]

theorem head_dropWhile_false (p : Char → Bool) :
    ∀ (l : List Char) (a : Char), (l.dropWhile p).head? = some a → p a = false := by
  intro l
  induction l with
  | nil => intro a h; simp at h
  | cons x xs ih =>
    intro a h
    rw [List.dropWhile_cons] at h
    by_cases hx : p x
    · rw [if_pos hx] at h
      exact ih a h
    · rw [if_neg hx] at h
      simp only [List.head?_cons, Option.some.injEq] at h
      subst h
      simpa using hx

theorem rstripSlash_no_trailing (s : String) :
    (rstripSlash s).data.getLast? ≠ some '/' := by
  intro h
  have h2 : ((s.data.reverse.dropWhile (fun c => c == '/')).reverse).getLast? = some '/' := h
  rw [List.getLast?_reverse] at h2
  have h3 := head_dropWhile_false (fun c => c == '/') _ _ h2
  simp at h3

/-! ## Claim theorems -/

/-- C1: the spec claims a request to the summarize endpoint with an
unresolvable video URL gets a 400-class response with detail
"Invalid YouTube URL".  The code instead returns a 500: the
`HTTPException(400, ...)` raised inside the `try` block is a subclass of
`Exception`, so the handler's own blanket `except Exception` catches it and
re-raises `HTTPException(500, str(e))`.  This theorem evaluates the handler
at the failing input `video_url = "https://example.com"`. -/
theorem summarize_invalid_url_returns_500 (output_type language : String)
    (custom_prompt : Option String) (metaFetch : Except String FullVideoMeta)
    (transcriptFetch : Except String String) (oai : String → Except String String) :
    summarize_youtube ⟨"https://example.com", output_type, language, custom_prompt⟩
        metaFetch transcriptFetch oai
      = Response.httpError 500 "400: Invalid YouTube URL" := rfl

/-- C2: the prompt composed by `generate_content_from_transcript` is a
transcript-independent lead followed by exactly the first 4000 characters
of the transcript; a transcript of length at most 4000 appears unchanged. -/
theorem transcript_truncation (transcript output_type : String)
    (title_entry custom_prompt : Option String) :
    generate_content_from_transcript_prompt transcript output_type title_entry custom_prompt
      = transcriptPromptLead output_type title_entry custom_prompt
        ++ (if transcript.length ≤ 4000 then transcript else pySlice transcript 4000) := by
  have hif : (if transcript.length ≤ 4000 then transcript else pySlice transcript 4000)
      = pySlice transcript 4000 := by
    split
    · next h =>
      unfold pySlice
      rw [List.take_of_length_le h]
    · rfl
  rw [hif]
  simp only [generate_content_from_transcript_prompt, transcriptPromptLead]
  split_ifs <;> rfl

/-- C3: every template-table lookup is total: an unrecognized key resolves
to the table's designated default fragment (`linkedin` entry for platforms,
`professional` entry for writing styles, `task` entry for ticket prompts,
and the three literal defaults of the communication tables). -/
theorem template_table_defaults (k₁ k₂ k₃ k₄ k₅ k₆ : String)
    (h₁ : k₁ ∉ ["linkedin", "twitter", "youtube", "instagram"])
    (h₂ : k₂ ∉ ["professional", "casual", "inspirational", "educational", "humorous", "thought-provoking"])
    (h₃ : k₃ ∉ ["epic", "story", "task", "bug", "improvement", "feature"])
    (h₄ : k₄ ∉ ["meeting-agenda", "meeting-description", "slack-message"])
    (h₅ : k₅ ∉ ["professional", "casual", "friendly", "urgent", "informative", "collaborative"])
    (h₆ : k₆ ∉ ["concise", "detailed", "bullet-points", "structured", "action-oriented"]) :
    platform_guides_get k₁ = platform_guides_get "linkedin" ∧
    style_guides_get k₂ = style_guides_get "professional" ∧
    ticket_prompts_get k₃ = ticket_prompts_get "task" ∧
    content_prompts_get k₄ = "Create professional communication content" ∧
    tone_guidelines_get k₅ = "using appropriate professional language" ∧
    style_guidelines_get k₆ = "with clear formatting" := by
  simp only [List.mem_cons, not_or] at h₁ h₂ h₃ h₄ h₅ h₆
  refine ⟨?_, ?_, ?_, ?_, ?_, ?_⟩
  · obtain ⟨a, b, c, d, -⟩ := h₁
    simp [platform_guides_get, a, b, c, d]
  · obtain ⟨a, b, c, d, e, f, -⟩ := h₂
    simp [style_guides_get, a, b, c, d, e, f]
  · obtain ⟨a, b, c, d, e, f, -⟩ := h₃
    simp [ticket_prompts_get, a, b, c, d, e, f]
  · obtain ⟨a, b, c, -⟩ := h₄
    simp [content_prompts_get, a, b, c]
  · obtain ⟨a, b, c, d, e, f, -⟩ := h₅
    simp [tone_guidelines_get, a, b, c, d, e, f]
  · obtain ⟨a, b, c, d, e, -⟩ := h₆
    simp [style_guidelines_get, a, b, c, d, e]

/-- Witness for C3 at the concrete unrecognized key "mystery". -/
theorem template_table_defaults_witness :
    platform_guides_get "mystery" = platform_guides_get "linkedin" ∧
    style_guides_get "mystery" = style_guides_get "professional" ∧
    ticket_prompts_get "mystery" = ticket_prompts_get "task" ∧
    content_prompts_get "mystery" = "Create professional communication content" ∧
    tone_guidelines_get "mystery" = "using appropriate professional language" ∧
    style_guidelines_get "mystery" = "with clear formatting" :=
  template_table_defaults "mystery" "mystery" "mystery" "mystery" "mystery" "mystery"
    (by decide) (by decide) (by decide) (by decide) (by decide) (by decide)

/-- C4: `extract_youtube_id` maps the four accepted URL shapes to
`abc123` and a non-matching URL to the not-found result. -/
theorem extract_youtube_id_shapes :
    extract_youtube_id "https://www.youtube.com/watch?v=abc123" = some "abc123" ∧
    extract_youtube_id "https://youtu.be/abc123" = some "abc123" ∧
    extract_youtube_id "https://www.youtube.com/embed/abc123" = some "abc123" ∧
    extract_youtube_id "https://www.youtube.com/v/abc123" = some "abc123" ∧
    extract_youtube_id "https://example.com" = none :=
  ⟨rfl, rfl, rfl, rfl, rfl⟩

/-- C5 counterexample: a non-201 response whose non-empty body is not
valid JSON makes `response.json()` raise a `JSONDecodeError`; the
function's own `except requests.exceptions.RequestException` turns that
into "Failed to connect to Jira: ..." — a failure message that does not
contain the status code, refuting the claim's for-every-non-201 clause. -/
theorem jira_create_nonjson_counterexample :
    create_jira_ticket_in_instance "S" "C" "bug" "High"
        ⟨"https://x.atlassian.net", "u", "t", "P"⟩
        (fun _ _ => ⟨400, true, .error "Expecting value: line 1 column 1 (char 0)"⟩)
      = .error "Failed to connect to Jira: Expecting value: line 1 column 1 (char 0)" ∧
    ¬ ∃ before after : String,
        "Failed to connect to Jira: Expecting value: line 1 column 1 (char 0)"
          = before ++ toString (400 : Nat) ++ after := by
  constructor
  · rfl
  · rintro ⟨b, a, h⟩
    have h4 : '4' ∈ ("Failed to connect to Jira: Expecting value: line 1 column 1 (char 0)").data := by
      rw [h, String.data_append, String.data_append]
      refine List.mem_append.mpr (Or.inl (List.mem_append.mpr (Or.inr ?_)))
      decide
    exact absurd h4 (by decide)

/-- C5 (amended): on a 201 response with parsed key PROJ-42 and
`jira_url = "https://x.atlassian.net"`, ticket creation returns exactly
`https://x.atlassian.net/browse/PROJ-42`; on any non-201 response whose
body is empty or parses as JSON, the call fails with a message containing
the status code (a non-201 with a non-empty non-JSON body instead fails
without it, per the counterexample).  The model consumes exactly one
`post`, so no retry happens. -/
theorem jira_create_contract_amended
    (subject content ticket_type priority user tok proj : String)
    (post : String → IssueFields → JiraHttpResponse) (hc : Bool) (d : String)
    (js : JiraSettings) (post₂ : String → IssueFields → JiraHttpResponse)
    (h201 : post (jira_api_url ⟨"https://x.atlassian.net", user, tok, proj⟩)
        (jira_issue_fields subject content ticket_type priority
          ⟨"https://x.atlassian.net", user, tok, proj⟩)
      = ⟨201, hc, .ok ⟨some "PROJ-42", d⟩⟩)
    (hne : (post₂ (jira_api_url js)
        (jira_issue_fields subject content ticket_type priority js)).status_code ≠ 201)
    (hjson : (post₂ (jira_api_url js)
        (jira_issue_fields subject content ticket_type priority js)).has_content = false
      ∨ ∃ j, (post₂ (jira_api_url js)
          (jira_issue_fields subject content ticket_type priority js)).json = .ok j) :
    create_jira_ticket_in_instance subject content ticket_type priority
        ⟨"https://x.atlassian.net", user, tok, proj⟩ post
      = .ok "https://x.atlassian.net/browse/PROJ-42" ∧
    ∃ before after, create_jira_ticket_in_instance subject content ticket_type priority js post₂
      = .error (before ++ toString (post₂ (jira_api_url js)
          (jira_issue_fields subject content ticket_type priority js)).status_code ++ after) := by
  constructor
  · simp only [create_jira_ticket_in_instance]
    rw [h201]
    rfl
  · simp only [create_jira_ticket_in_instance]
    split
    · next hcond => exact absurd (by simpa using hcond) hne
    · by_cases hc2 : (post₂ (jira_api_url js)
          (jira_issue_fields subject content ticket_type priority js)).has_content = true
      · rcases hjson with hfc | ⟨j, hj⟩
        · rw [hfc] at hc2
          exact absurd hc2 (by simp)
        · refine ⟨"Failed to create Jira ticket: ", " - " ++ j.dict_repr, ?_⟩
          rw [if_pos hc2, hj]
          exact congrArg Except.error (String.append_assoc _ _ _)
      · refine ⟨"Failed to create Jira ticket: ",
          " - " ++ "\x7b\x27error\x27: \x27Unknown error\x27\x7d", ?_⟩
        rw [if_neg hc2]
        exact congrArg Except.error (String.append_assoc _ _ _)

/-- Witness for the amended C5: a concrete 201 exchange with a parsed
body, and a concrete 400 exchange with an empty body. -/
theorem jira_create_contract_amended_witness :
    create_jira_ticket_in_instance "S" "C" "bug" "High"
        ⟨"https://x.atlassian.net", "u", "t", "P"⟩
        (fun _ _ => ⟨201, true, .ok ⟨some "PROJ-42", "\x7b\x27key\x27: \x27PROJ-42\x27\x7d"⟩⟩)
      = .ok "https://x.atlassian.net/browse/PROJ-42" ∧
    ∃ before after, create_jira_ticket_in_instance "S" "C" "bug" "High"
        ⟨"https://y.example.org", "u", "t", "P"⟩
        (fun _ _ => ⟨400, false, .error "Expecting value: line 1 column 1 (char 0)"⟩)
      = .error (before ++ toString (400 : Nat) ++ after) :=
  jira_create_contract_amended "S" "C" "bug" "High" "u" "t" "P"
    (fun _ _ => ⟨201, true, .ok ⟨some "PROJ-42", "\x7b\x27key\x27: \x27PROJ-42\x27\x7d"⟩⟩)
    true "\x7b\x27key\x27: \x27PROJ-42\x27\x7d"
    ⟨"https://y.example.org", "u", "t", "P"⟩
    (fun _ _ => ⟨400, false, .error "Expecting value: line 1 column 1 (char 0)"⟩)
    rfl (by decide) (Or.inl rfl)

/-- C6: the ticket-type to Jira issue-type-name mapping, with default
"Task" for every unrecognized ticket type. -/
theorem jira_issue_type_mapping (s : String)
    (h : s ∉ ["epic", "story", "task", "bug", "improvement", "feature"]) :
    jira_issue_types_get "epic" = "Epic" ∧ jira_issue_types_get "story" = "Story" ∧
    jira_issue_types_get "task" = "Task" ∧ jira_issue_types_get "bug" = "Bug" ∧
    jira_issue_types_get "improvement" = "Improvement" ∧
    jira_issue_types_get "feature" = "New Feature" ∧
    jira_issue_types_get s = "Task" := by
  simp only [List.mem_cons, not_or] at h
  obtain ⟨h1, h2, h3, h4, h5, h6, -⟩ := h
  exact ⟨rfl, rfl, rfl, rfl, rfl, rfl,
    by simp [jira_issue_types_get, h1, h2, h3, h4, h5, h6]⟩

/-- Witness for C6 at the concrete unrecognized ticket type "subtask". -/
theorem jira_issue_type_mapping_witness :
    jira_issue_types_get "epic" = "Epic" ∧ jira_issue_types_get "story" = "Story" ∧
    jira_issue_types_get "task" = "Task" ∧ jira_issue_types_get "bug" = "Bug" ∧
    jira_issue_types_get "improvement" = "Improvement" ∧
    jira_issue_types_get "feature" = "New Feature" ∧
    jira_issue_types_get "subtask" = "Task" :=
  jira_issue_type_mapping "subtask" (by decide)

/-- C7: a failing metadata fetch is swallowed: `get_video_details` returns
the placeholder dict (title "YouTube Video", author "Unknown") and the
summarize endpoint still answers with a result when the URL resolves, the
transcript fetch succeeds and the completion call succeeds. -/
theorem metadata_failure_degraded (err video_url output_type language : String)
    (custom_prompt : Option String) (transcript result vid : String)
    (oai : String → Except String String)
    (hurl : extract_youtube_id video_url = some vid)
    (hoai : ∀ p, oai p = .ok result) :
    get_video_details (.error err) = .minimal ∧
    (get_video_details (.error err)).titleVal = "YouTube Video" ∧
    (get_video_details (.error err)).authorVal = "Unknown" ∧
    summarize_youtube ⟨video_url, output_type, language, custom_prompt⟩
        (.error err) (.ok transcript) oai
      = Response.ok result VideoDetailsDict.minimal := by
  refine ⟨rfl, rfl, rfl, ?_⟩
  simp only [summarize_youtube, hurl, get_youtube_transcript, get_video_details, hoai]

/-- Witness for C7: a concrete failing metadata fetch on a resolvable URL. -/
theorem metadata_failure_degraded_witness :
    get_video_details (.error "boom") = .minimal ∧
    (get_video_details (.error "boom")).titleVal = "YouTube Video" ∧
    (get_video_details (.error "boom")).authorVal = "Unknown" ∧
    summarize_youtube ⟨"https://youtu.be/abc123", "summary", "english", none⟩
        (.error "boom") (.ok "T") (fun _ => .ok "OUT")
      = Response.ok "OUT" VideoDetailsDict.minimal :=
  metadata_failure_degraded "boom" "https://youtu.be/abc123" "summary" "english" none
    "T" "OUT" "abc123" (fun _ => .ok "OUT") rfl (fun _ => rfl)

/-- C8: every prompt composer is deterministic: two calls with identical
input fields produce identical prompt strings. -/
theorem prompt_composition_deterministic
    (a₁ a₂ : String × String × Option String × Option String)
    (b₁ b₂ : String × String × String × Option String)
    (c₁ c₂ : String × String × String × Option String)
    (d₁ d₂ : String × String × String × String)
    (e₁ e₂ : String × String × Option String × String × String × Option String)
    (ha : a₁ = a₂) (hb : b₁ = b₂) (hc : c₁ = c₂) (hd : d₁ = d₂) (he : e₁ = e₂) :
    generate_content_from_transcript_prompt a₁.1 a₁.2.1 a₁.2.2.1 a₁.2.2.2
      = generate_content_from_transcript_prompt a₂.1 a₂.2.1 a₂.2.2.1 a₂.2.2.2 ∧
    generate_social_media_post_prompt b₁.1 b₁.2.1 b₁.2.2.1 b₁.2.2.2
      = generate_social_media_post_prompt b₂.1 b₂.2.1 b₂.2.2.1 b₂.2.2.2 ∧
    generate_comment_for_content_prompt c₁.1 c₁.2.1 c₁.2.2.1 c₁.2.2.2
      = generate_comment_for_content_prompt c₂.1 c₂.2.1 c₂.2.2.1 c₂.2.2.2 ∧
    generate_jira_ticket_content_prompt d₁.1 d₁.2.1 d₁.2.2.1 d₁.2.2.2
      = generate_jira_ticket_content_prompt d₂.1 d₂.2.1 d₂.2.2.1 d₂.2.2.2 ∧
    generate_communication_content_prompt e₁.1 e₁.2.1 e₁.2.2.1 e₁.2.2.2.1
        e₁.2.2.2.2.1 e₁.2.2.2.2.2
      = generate_communication_content_prompt e₂.1 e₂.2.1 e₂.2.2.1 e₂.2.2.2.1
        e₂.2.2.2.2.1 e₂.2.2.2.2.2 := by
  subst ha hb hc hd he
  exact ⟨rfl, rfl, rfl, rfl, rfl⟩

/-- Witness for C8 at concrete argument tuples. -/
theorem prompt_composition_deterministic_witness :
    generate_content_from_transcript_prompt "t" "summary" (some "V") none
      = generate_content_from_transcript_prompt "t" "summary" (some "V") none ∧
    generate_social_media_post_prompt "topic" "twitter" "casual" (some "ci")
      = generate_social_media_post_prompt "topic" "twitter" "casual" (some "ci") ∧
    generate_comment_for_content_prompt "post" "linkedin" "friendly" none
      = generate_comment_for_content_prompt "post" "linkedin" "friendly" none ∧
    generate_jira_ticket_content_prompt "s" "rd" "bug" "High"
      = generate_jira_ticket_content_prompt "s" "rd" "bug" "High" ∧
    generate_communication_content_prompt "slack-message" "s" (some "d") "urgent" "concise" none
      = generate_communication_content_prompt "slack-message" "s" (some "d") "urgent" "concise" none :=
  prompt_composition_deterministic
    ("t", "summary", some "V", none) ("t", "summary", some "V", none)
    ("topic", "twitter", "casual", some "ci") ("topic", "twitter", "casual", some "ci")
    ("post", "linkedin", "friendly", none) ("post", "linkedin", "friendly", none)
    ("s", "rd", "bug", "High") ("s", "rd", "bug", "High")
    ("slack-message", "s", some "d", "urgent", "concise", none)
    ("slack-message", "s", some "d", "urgent", "concise", none)
    rfl rfl rfl rfl rfl

/-- C9: output type "custom" with no custom prompt supplied falls through
to the default analysis fragment, identical to any unrecognized output
type, and raises no error. -/
theorem custom_without_prompt_defaults (transcript : String) (title_entry : Option String)
    (output_type : String)
    (h : output_type ∉ ["summary", "notes", "explanation", "questions", "custom"]) :
    generate_content_from_transcript_prompt transcript "custom" title_entry none
      = "Analyze the content of this YouTube video titled \x27"
          ++ title_entry.getD "YouTube Video" ++ "\x27. Transcript:\n\n"
          ++ pySlice transcript 4000 ∧
    generate_content_from_transcript_prompt transcript "custom" title_entry none
      = generate_content_from_transcript_prompt transcript output_type title_entry none := by
  simp only [List.mem_cons, not_or] at h
  obtain ⟨h1, h2, h3, h4, h5, -⟩ := h
  refine ⟨rfl, ?_⟩
  simp [generate_content_from_transcript_prompt, strTruthy, h1, h2, h3, h4, h5]

/-- Witness for C9 at the concrete unrecognized output type "analysis". -/
theorem custom_without_prompt_defaults_witness :
    generate_content_from_transcript_prompt "T" "custom" none none
      = "Analyze the content of this YouTube video titled \x27"
          ++ (none : Option String).getD "YouTube Video" ++ "\x27. Transcript:\n\n"
          ++ pySlice "T" 4000 ∧
    generate_content_from_transcript_prompt "T" "custom" none none
      = generate_content_from_transcript_prompt "T" "analysis" none none :=
  custom_without_prompt_defaults "T" none "analysis" (by decide)

/-- C10: ticket creation is invariant under trailing slashes in
`jira_url`: the issue-creation endpoint URL, the browse URL and the whole
call result agree for URLs differing only in trailing slashes, and the
browse URL's base never ends in a slash, so no double slash precedes
"browse". -/
theorem jira_trailing_slash_invariant
    (base user tok proj subject content ticket_type priority : String)
    (key : Option String) (n₁ n₂ : Nat)
    (post : String → IssueFields → JiraHttpResponse) :
    jira_api_url ⟨base ++ String.mk (List.replicate n₁ '/'), user, tok, proj⟩
      = jira_api_url ⟨base ++ String.mk (List.replicate n₂ '/'), user, tok, proj⟩ ∧
    jira_browse_url ⟨base ++ String.mk (List.replicate n₁ '/'), user, tok, proj⟩ key
      = jira_browse_url ⟨base ++ String.mk (List.replicate n₂ '/'), user, tok, proj⟩ key ∧
    create_jira_ticket_in_instance subject content ticket_type priority
        ⟨base ++ String.mk (List.replicate n₁ '/'), user, tok, proj⟩ post
      = create_jira_ticket_in_instance subject content ticket_type priority
        ⟨base ++ String.mk (List.replicate n₂ '/'), user, tok, proj⟩ post ∧
    jira_browse_url ⟨base ++ String.mk (List.replicate n₁ '/'), user, tok, proj⟩ key
      = rstripSlash (base ++ String.mk (List.replicate n₁ '/')) ++ "/browse/" ++ pyOptStr key ∧
    (rstripSlash (base ++ String.mk (List.replicate n₁ '/'))).data.getLast? ≠ some '/' := by
  have hr : rstripSlash (base ++ String.mk (List.replicate n₁ '/'))
      = rstripSlash (base ++ String.mk (List.replicate n₂ '/')) := by
    rw [rstripSlash_append_slashes, rstripSlash_append_slashes]
  refine ⟨?_, ?_, ?_, rfl, rstripSlash_no_trailing _⟩
  · simp only [jira_api_url, hr]
  · simp only [jira_browse_url, hr]
  · simp only [create_jira_ticket_in_instance, jira_api_url, jira_browse_url,
      jira_issue_fields, hr]

end AIToolbox
